import Mathlib

/-
  Verification of the per-peer stream protocol core (net/stream.go).

  The Go file is shallowly embedded below.  Pure control flow is translated
  directly; effectful calls on collaborators (StreamManager.RemoveStream,
  RouteTable.AddPeerStream / RemovePeerStream / AddPeers, NetService.PutMessage,
  RecordRecvMessage, the quit and handshake channels, the transport write)
  become counters and logs inside an explicit `StreamState`.  Functions of the
  repository that live outside this file (snappy decode, the protobuf codecs,
  crc32, the frame codec producing `message.Content()`) are abstracted as
  fields of an `Env` record, quantified over in the theorems.  Machine
  integers appear only as byte values and lengths, modelled as `Nat`.

  A blocking send on a full buffered channel is modelled by returning `none`
  (the operation does not complete in the sequential model); a non-blocking
  `select` with `default` is modelled by a capacity test.
-/

namespace NebNet

/-- Message-name and version constants of the source file. -/
def ClientVersion : String := "0.3.0"

def HELLO : String := "hello"

def OK : String := "ok"

def BYE : String := "bye"

def SYNCROUTE : String := "syncroute"

def ROUTETABLE : String := "routetable"

/-- Stream status constants (streamStatusInit / HandshakeSucceed / Closed). -/
inductive StreamStatus where
  | init
  | handshakeSucceed
  | closed
deriving DecidableEq, Repr

/-- Rank of a status in the lifecycle order INIT, HANDSHAKE_SUCCEEDED, CLOSED. -/
def statusRank : StreamStatus → Nat
  | .init => 0
  | .handshakeSucceed => 1
  | .closed => 2

/-- The three stream errors declared in the source. -/
inductive NetErr where
  | shouldCloseConnectionAndExitLoop
  | streamIsNotConnected
  | uncompressMessageFailed
deriving DecidableEq, Repr

/-- A received or sent NebMessage: its name, the first reserved byte
(carrying the compression bit 0x80) and its payload bytes.  The header
fields that the frame codec checks before `handleMessage` runs (chain id,
checksums) are outside this file and are not represented. -/
structure NebMessage where
  messageName : String
  reserved0 : Nat
  data : List Nat
deriving DecidableEq, Repr

/-- Compression flag of a message: reserved[0] AND 0x80. -/
def compressBit (m : NebMessage) : Nat := Nat.land m.reserved0 128

/-- The fields of netpb.Hello and netpb.OK. -/
structure HandshakeMsg where
  nodeId : String
  clientVersion : String
deriving DecidableEq, Repr

/-- State of one Stream.  Go channels become either counters of completed
sends (handshakeSignals, quitSignals, notifQ) or FIFO lists (the three
priority queues); calls on collaborators become counters or logs. -/
structure StreamState where
  pid : String
  connected : Bool
  status : StreamStatus
  handshakeSignals : Nat
  quitSignals : Nat
  removeStreamCalls : Nat
  removePeerStreamCalls : Nat
  addPeerStreamCalls : Nat
  addPeersCalls : Nat
  transportCloseCalls : Nat
  putMessages : List (String × String × List Nat)
  recvRecords : List Nat
  sentMsgs : List NebMessage
  wireOut : List (List Nat)
  writeDeadlines : List Nat
  highQ : List NebMessage
  normalQ : List NebMessage
  lowQ : List NebMessage
  notifQ : Nat
  msgCount : List (String × Nat)
  compressFlagStore : List (String × Nat)
deriving DecidableEq, Repr

/-- External collaborators and codecs used by stream.go but defined
elsewhere in the repository or in libraries. -/
structure Env where
  snappyDecode : List Nat → Option (List Nat)
  helloFromProto : List Nat → Option HandshakeMsg
  okFromProto : List Nat → Option HandshakeMsg
  peersFromProto : List Nat → Bool
  crc32 : List Nat → Nat
  content : NebMessage → List Nat
  routeTableReplyData : List Nat
  okReplyData : List Nat

/-- The state built by newStreamInstance: status INIT, empty channels,
no collaborator calls yet. -/
def newStreamInstance (pid : String) (connected : Bool) : StreamState :=
  { pid := pid
    connected := connected
    status := .init
    handshakeSignals := 0
    quitSignals := 0
    removeStreamCalls := 0
    removePeerStreamCalls := 0
    addPeerStreamCalls := 0
    addPeersCalls := 0
    transportCloseCalls := 0
    putMessages := []
    recvRecords := []
    sentMsgs := []
    wireOut := []
    writeDeadlines := []
    highQ := []
    normalQ := []
    lowQ := []
    notifQ := 0
    msgCount := []
    compressFlagStore := [] }

/-- Capacity of each priority message channel: 2 * 1024. -/
def queueCap : Nat := 2 * 1024

/-- Capacity of messageNotifChan: 6 * 1024. -/
def notifCap : Nat := 6 * 1024

/-- close: under the mutex, return if already CLOSED, otherwise set CLOSED,
deregister from the stream manager and the route table, signal quit, and
close the transport when attached. -/
def close (s : StreamState) : StreamState :=
  if s.status = StreamStatus.closed then s
  else if s.connected then
    { s with status := .closed
             removeStreamCalls := s.removeStreamCalls + 1
             removePeerStreamCalls := s.removePeerStreamCalls + 1
             quitSignals := s.quitSignals + 1
             transportCloseCalls := s.transportCloseCalls + 1 }
  else
    { s with status := .closed
             removeStreamCalls := s.removeStreamCalls + 1
             removePeerStreamCalls := s.removePeerStreamCalls + 1
             quitSignals := s.quitSignals + 1 }

/-- Write deadline in seconds for a payload of the given length:
len(data)/1024/5 + 1 (integer division). -/
def writeDeadlineSeconds (len : Nat) : Nat := len / 1024 / 5 + 1

/-- Write: if the transport is not attached, close the stream and return
StreamIsNotConnected; otherwise set the write deadline and transmit the
bytes.  The transport itself is abstracted as always accepting the bytes;
transport level failures are external nondeterminism outside this model. -/
def Write (s : StreamState) (d : List Nat) : StreamState × Option NetErr :=
  if s.connected = false then (close s, some .streamIsNotConnected)
  else
    ({ s with writeDeadlines := s.writeDeadlines ++ [writeDeadlineSeconds d.length]
              wireOut := s.wireOut ++ [d] }, none)

/-- NewNebMessage as used by WriteMessage and SendMessage: frame a name and
payload.  Header details (chain id, checksums, DefaultReserved) are handled
by the codec outside this file; only the name and payload matter here. -/
def mkNebMessage (name : String) (d : List Nat) : NebMessage :=
  { messageName := name, reserved0 := 0, data := d }

/-- WriteNebMessage: write the framed bytes of the message on the transport;
on success the message is recorded as transmitted. -/
def WriteNebMessage (E : Env) (s : StreamState) (m : NebMessage) :
    StreamState × Option NetErr :=
  match Write s (E.content m) with
  | (s1, none) => ({ s1 with sentMsgs := s1.sentMsgs ++ [m] }, none)
  | (s1, some e) => (s1, some e)

/-- WriteMessage: build the NebMessage and write it. -/
def WriteMessage (E : Env) (s : StreamState) (name : String) (d : List Nat) :
    StreamState × Option NetErr :=
  WriteNebMessage E s (mkNebMessage name d)

/-- Ok: reply with an OK message (direct write, not queued). -/
def Ok (E : Env) (s : StreamState) : StreamState × Option NetErr :=
  WriteMessage E s OK E.okReplyData

/-- Bye: best-effort write of a BYE message followed by close. -/
def Bye (E : Env) (s : StreamState) : StreamState :=
  close (WriteMessage E s BYE []).1

/-- finishHandshake: set status to HANDSHAKE_SUCCEEDED and signal the
handshake barrier channel.  The send is counted; there is no guard against
running twice. -/
def finishHandshake (s : StreamState) : StreamState :=
  { s with status := .handshakeSucceed
           handshakeSignals := s.handshakeSignals + 1 }

/-- CheckClientVersionCompatibility: string equality of the two versions. -/
def CheckClientVersionCompatibility (v1 v2 : String) : Bool := v1 == v2

/-- onHello: decode the Hello proto; on decode failure or on a node id or
client version mismatch return ShouldCloseConnection; otherwise register in
the route table, finish the handshake and reply OK. -/
def onHello (E : Env) (s : StreamState) (d : List Nat) :
    StreamState × Option NetErr :=
  match E.helloFromProto d with
  | none => (s, some .shouldCloseConnectionAndExitLoop)
  | some msg =>
    if msg.nodeId ≠ s.pid ∨
        CheckClientVersionCompatibility ClientVersion msg.clientVersion = false then
      (s, some .shouldCloseConnectionAndExitLoop)
    else
      Ok E (finishHandshake { s with addPeerStreamCalls := s.addPeerStreamCalls + 1 })

/-- onOk: decode the OK proto; on decode failure or on a node id or client
version mismatch return ShouldCloseConnection; otherwise register in the
route table and finish the handshake, with no reply. -/
def onOk (E : Env) (s : StreamState) (d : List Nat) :
    StreamState × Option NetErr :=
  match E.okFromProto d with
  | none => (s, some .shouldCloseConnectionAndExitLoop)
  | some msg =>
    if msg.nodeId ≠ s.pid ∨
        CheckClientVersionCompatibility ClientVersion msg.clientVersion = false then
      (s, some .shouldCloseConnectionAndExitLoop)
    else
      (finishHandshake { s with addPeerStreamCalls := s.addPeerStreamCalls + 1 }, none)

/-- onBye: always request closing the connection. -/
def onBye (s : StreamState) : StreamState × Option NetErr :=
  (s, some .shouldCloseConnectionAndExitLoop)

/-- Non-blocking send on messageNotifChan: drop the token when full. -/
def trySendNotif (s : StreamState) : StreamState :=
  if s.notifQ < notifCap then { s with notifQ := s.notifQ + 1 } else s

/-- Priority argument of SendMessage.  The Go switch sends anything that is
neither High nor Normal to the low-priority channel. -/
inductive MessagePriority where
  | high
  | normal
  | low
deriving DecidableEq, Repr

/-- SendMessage: frame the message and enqueue it.  High priority is a
blocking channel send, modelled as `none` when the queue is full (the call
does not complete now).  Normal and low priorities are non-blocking: on a
full queue the message is dropped and nil is returned.  After a successful
enqueue a non-blocking notification is sent. -/
def SendMessage (s : StreamState) (name : String) (d : List Nat)
    (priority : MessagePriority) : Option (StreamState × Option NetErr) :=
  let message := mkNebMessage name d
  match priority with
  | .high =>
    if s.highQ.length < queueCap then
      some (trySendNotif { s with highQ := s.highQ ++ [message] }, none)
    else none
  | .normal =>
    if s.normalQ.length < queueCap then
      some (trySendNotif { s with normalQ := s.normalQ ++ [message] }, none)
    else some (s, none)
  | .low =>
    if s.lowQ.length < queueCap then
      some (trySendNotif { s with lowQ := s.lowQ ++ [message] }, none)
    else some (s, none)

/-- onSyncRoute: reply with the marshalled ROUTETABLE peers message at high
priority (RouteTable composed with SendProtoMessage). -/
def onSyncRoute (E : Env) (s : StreamState) : Option (StreamState × Option NetErr) :=
  SendMessage s ROUTETABLE E.routeTableReplyData .high

/-- onRouteTable: decode the peers proto; on failure return
ShouldCloseConnection, otherwise hand the peers to RouteTable.AddPeers. -/
def onRouteTable (E : Env) (s : StreamState) (d : List Nat) :
    StreamState × Option NetErr :=
  if E.peersFromProto d then
    ({ s with addPeersCalls := s.addPeersCalls + 1 }, none)
  else (s, some .shouldCloseConnectionAndExitLoop)

/-- sync.Map Store on compressFlag, keyed by the peer id. -/
def storeCompressFlag : List (String × Nat) → String → Nat → List (String × Nat)
  | [], k, v => [(k, v)]
  | (k1, v1) :: rest, k, v =>
    if k1 = k then (k, v) :: rest else (k1, v1) :: storeCompressFlag rest k v

/-- Increment of msgCount[messageName]. -/
def bumpCount : List (String × Nat) → String → List (String × Nat)
  | [], k => [(k, 1)]
  | (k1, v1) :: rest, k =>
    if k1 = k then (k1, v1 + 1) :: rest else (k1, v1) :: bumpCount rest k

/-- The bookkeeping at the top of handleMessage: store the compression flag
under the peer key and bump the per-name counter. -/
def recordIncoming (s : StreamState) (m : NebMessage) : StreamState :=
  { s with compressFlagStore := storeCompressFlag s.compressFlagStore s.pid (compressBit m)
           msgCount := bumpCount s.msgCount m.messageName }

/-- handleMessage: record the message, decompress the payload when the
compression bit is set and the name is not HELLO (UncompressFailed on
decode failure), route HELLO, OK and BYE, reject anything else before
HANDSHAKE_SUCCEEDED, then route SYNCROUTE and ROUTETABLE, and hand any
other name to NetService.PutMessage plus the duplicate recorder.  The
result is `none` when the SYNCROUTE reply blocks on a full high queue. -/
def handleMessage (E : Env) (s : StreamState) (m : NebMessage) :
    Option (StreamState × Option NetErr) :=
  let s1 := recordIncoming s m
  match (if m.messageName ≠ HELLO ∧ compressBit m > 0
         then E.snappyDecode m.data else some m.data) with
  | none => some (s1, some .uncompressMessageFailed)
  | some data =>
    if m.messageName = HELLO then some (onHello E s1 data)
    else if m.messageName = OK then some (onOk E s1 data)
    else if m.messageName = BYE then some (onBye s1)
    else if s1.status ≠ .handshakeSucceed then
      some (s1, some .shouldCloseConnectionAndExitLoop)
    else if m.messageName = SYNCROUTE then onSyncRoute E s1
    else if m.messageName = ROUTETABLE then some (onRouteTable E s1 data)
    else
      some ({ s1 with putMessages := s1.putMessages ++ [(m.messageName, s1.pid, data)]
                      recvRecords := s1.recvRecords ++ [E.crc32 data] }, none)

/-- One dispatch step of the read loop on a complete frame: run
handleMessage; exactly when it returns ShouldCloseConnection, send BYE and
exit the loop (the Bool is the exit flag). -/
def readStep (E : Env) (s : StreamState) (m : NebMessage) :
    Option (StreamState × Bool) :=
  match handleMessage E s m with
  | none => none
  | some (s1, e) =>
    if e = some NetErr.shouldCloseConnectionAndExitLoop then some (Bye E s1, true)
    else some (s1, false)

/-- One wakeup of the write loop on a notification: a strict-priority
non-blocking pop of high, then normal, then low; the popped message is
written; with all queues empty nothing happens. -/
def writeStep (E : Env) (s : StreamState) : StreamState :=
  match s.highQ with
  | m :: rest => (WriteNebMessage E { s with highQ := rest } m).1
  | [] =>
    match s.normalQ with
    | m :: rest => (WriteNebMessage E { s with normalQ := rest } m).1
    | [] =>
      match s.lowQ with
      | m :: rest => (WriteNebMessage E { s with lowQ := rest } m).1
      | [] => s

/-- The drain phase of the write loop across n received notifications. -/
def drainNotifs (E : Env) : Nat → StreamState → StreamState
  | 0, s => s
  | n + 1, s => drainNotifs E n (writeStep E s)

/-- Operations that can reach a stream from the outside: the read loop
handling a complete frame, and close (invoked by either loop or by external
callers).  A blocked handleMessage makes no transition. -/
inductive StreamOp where
  | recv (m : NebMessage)
  | doClose
deriving DecidableEq, Repr

/-- Apply one operation to the stream state. -/
def applyOp (E : Env) (s : StreamState) : StreamOp → StreamState
  | .recv m =>
    match handleMessage E s m with
    | some (s1, _) => s1
    | none => s
  | .doClose => close s

/-- Run a sequence of operations. -/
def runOps (E : Env) (s : StreamState) : List StreamOp → StreamState
  | [] => s
  | op :: rest => runOps E (applyOp E s op) rest

/-
  Helper lemmas.
-/

theorem close_status (s : StreamState) : (close s).status = StreamStatus.closed := by
  unfold close
  split
  · assumption
  · split <;> rfl

theorem close_of_closed (s : StreamState) (h : s.status = StreamStatus.closed) :
    close s = s := by
  unfold close
  simp [h]

theorem close_close (s : StreamState) : close (close s) = close s :=
  close_of_closed (close s) (close_status s)

theorem close_iterate (s : StreamState) (n : Nat) :
    close^[n] (close s) = close s := by
  induction n with
  | zero => rfl
  | succ k ih => rw [Function.iterate_succ_apply', ih, close_close]

theorem close_removeStreamCalls (s : StreamState) :
    (close s).removeStreamCalls ≤ s.removeStreamCalls + 1 := by
  unfold close
  split
  · exact Nat.le_succ _
  · split <;> simp

theorem close_removePeerStreamCalls (s : StreamState) :
    (close s).removePeerStreamCalls ≤ s.removePeerStreamCalls + 1 := by
  unfold close
  split
  · exact Nat.le_succ _
  · split <;> simp

theorem close_quitSignals (s : StreamState) :
    (close s).quitSignals ≤ s.quitSignals + 1 := by
  unfold close
  split
  · exact Nat.le_succ _
  · split <;> simp

theorem close_transportCloseCalls (s : StreamState) :
    (close s).transportCloseCalls ≤ s.transportCloseCalls + 1 := by
  unfold close
  split
  · exact Nat.le_succ _
  · split <;> simp

/-
  C3: idempotence of close.
-/

/-- Claim C3: close is idempotent: a second and any further call to close
leaves the state unchanged and performs no teardown action, so across any
sequence of close invocations each teardown action (RemoveStream,
RemovePeerStream, quit signal, transport close) occurs at most once. -/
theorem close_idempotent (s : StreamState) :
    close (close s) = close s ∧
    (∀ n : Nat, close^[n + 1] s = close s) ∧
    (∀ n : Nat,
      (close^[n] s).removeStreamCalls ≤ s.removeStreamCalls + 1 ∧
      (close^[n] s).removePeerStreamCalls ≤ s.removePeerStreamCalls + 1 ∧
      (close^[n] s).quitSignals ≤ s.quitSignals + 1 ∧
      (close^[n] s).transportCloseCalls ≤ s.transportCloseCalls + 1) := by
  refine ⟨close_close s, ?_, ?_⟩
  · intro n
    rw [Function.iterate_succ_apply, close_iterate]
  · intro n
    match n with
    | 0 => exact ⟨Nat.le_succ _, Nat.le_succ _, Nat.le_succ _, Nat.le_succ _⟩
    | k + 1 =>
      rw [Function.iterate_succ_apply, close_iterate]
      exact ⟨close_removeStreamCalls s, close_removePeerStreamCalls s,
        close_quitSignals s, close_transportCloseCalls s⟩

/-
  C10: Write on a detached transport closes the stream.
-/

/-- Claim C10: calling Write while the transport is not attached returns the
StreamIsNotConnected error and, as a side effect, closes the stream: the
status becomes CLOSED, and when the stream was not closed already it is
deregistered from the StreamManager and the RouteTable and the quit signal
is sent. -/
theorem Write_not_connected_closes (s : StreamState) (d : List Nat)
    (h : s.connected = false) :
    Write s d = (close s, some NetErr.streamIsNotConnected) ∧
    (Write s d).1.status = StreamStatus.closed ∧
    (s.status ≠ StreamStatus.closed →
      (Write s d).1.removeStreamCalls = s.removeStreamCalls + 1 ∧
      (Write s d).1.removePeerStreamCalls = s.removePeerStreamCalls + 1 ∧
      (Write s d).1.quitSignals = s.quitSignals + 1) := by
  have hw : Write s d = (close s, some NetErr.streamIsNotConnected) := by
    unfold Write
    simp [h]
  refine ⟨hw, ?_, ?_⟩
  · rw [hw]
    exact close_status s
  · intro hs
    rw [hw]
    unfold close
    simp only [hs, if_false, h]
    simp

/-- Witness for C10: a fresh unconnected stream, written to, ends closed
with each teardown action performed once. -/
theorem Write_not_connected_closes_witness :
    Write (newStreamInstance "peer1" false) [7] =
      (close (newStreamInstance "peer1" false), some NetErr.streamIsNotConnected) ∧
    (Write (newStreamInstance "peer1" false) [7]).1.status = StreamStatus.closed ∧
    ((newStreamInstance "peer1" false).status ≠ StreamStatus.closed →
      (Write (newStreamInstance "peer1" false) [7]).1.removeStreamCalls =
        (newStreamInstance "peer1" false).removeStreamCalls + 1 ∧
      (Write (newStreamInstance "peer1" false) [7]).1.removePeerStreamCalls =
        (newStreamInstance "peer1" false).removePeerStreamCalls + 1 ∧
      (Write (newStreamInstance "peer1" false) [7]).1.quitSignals =
        (newStreamInstance "peer1" false).quitSignals + 1) :=
  Write_not_connected_closes (newStreamInstance "peer1" false) [7] rfl

/-
  C8: the per-message write deadline.
-/

/-- The deadline formula stated by the claim, written from the words of the
spec: max(1, ceil(len/5120)) seconds. -/
def claimedDeadlineSeconds (len : Nat) : Nat := max 1 ((len + 5120 - 1) / 5120)

/-- Counterexample to claim C8: at a payload of exactly 5120 bytes the code
computes a 2 second deadline while the claimed formula gives 1 second. -/
theorem writeDeadline_counterexample :
    ¬ (writeDeadlineSeconds 5120 = claimedDeadlineSeconds 5120) := by decide

/-- Claim C8 (amended): for a payload of length len, Write sets the deadline
to floor(len/5120) + 1 seconds; this is always at least the claimed
max(1, ceil(len/5120)) and exceeds it exactly at positive multiples
of 5120. -/
theorem writeDeadline_formula (s : StreamState) (d : List Nat)
    (h : s.connected = true) :
    (Write s d).1.writeDeadlines = s.writeDeadlines ++ [d.length / 5120 + 1] ∧
    writeDeadlineSeconds d.length = d.length / 5120 + 1 ∧
    claimedDeadlineSeconds d.length ≤ writeDeadlineSeconds d.length := by
  have hdiv : ∀ n : Nat, writeDeadlineSeconds n = n / 5120 + 1 := by
    intro n
    unfold writeDeadlineSeconds
    rw [Nat.div_div_eq_div_mul]
  refine ⟨?_, hdiv d.length, ?_⟩
  · unfold Write
    simp [h, hdiv]
  · unfold claimedDeadlineSeconds
    rw [hdiv]
    refine max_le (by omega) ?_
    calc (d.length + 5120 - 1) / 5120 ≤ (d.length + 5120) / 5120 :=
          Nat.div_le_div_right (by omega)
      _ = d.length / 5120 + 1 := Nat.add_div_right _ (by omega)

/-- Witness for C8: a connected stream writing a 5120 byte payload records a
deadline of 2 seconds. -/
theorem writeDeadline_formula_witness :
    (Write (newStreamInstance "peer1" true) (List.replicate 5120 0)).1.writeDeadlines =
      (newStreamInstance "peer1" true).writeDeadlines ++
        [(List.replicate (n := 5120) (a := (0 : Nat))).length / 5120 + 1] ∧
    writeDeadlineSeconds (List.replicate (n := 5120) (a := (0 : Nat))).length =
      (List.replicate (n := 5120) (a := (0 : Nat))).length / 5120 + 1 ∧
    claimedDeadlineSeconds (List.replicate (n := 5120) (a := (0 : Nat))).length ≤
      writeDeadlineSeconds (List.replicate (n := 5120) (a := (0 : Nat))).length :=
  writeDeadline_formula (newStreamInstance "peer1" true) (List.replicate 5120 0) rfl

/-
  C9: SendMessage enqueue behaviour.
-/

/-- Claim C9: SendMessage at NORMAL or LOW priority never blocks; when the
selected queue is full the message is dropped and nil is returned with the
state unchanged.  At HIGH priority the send blocks while the high queue is
full, and enqueues the message (followed by a non-blocking notification)
as soon as there is room. -/
theorem SendMessage_priorities (s : StreamState) (name : String) (d : List Nat) :
    (∀ p : MessagePriority, p ≠ .high → (SendMessage s name d p).isSome = true) ∧
    (queueCap ≤ s.normalQ.length → SendMessage s name d .normal = some (s, none)) ∧
    (queueCap ≤ s.lowQ.length → SendMessage s name d .low = some (s, none)) ∧
    (s.normalQ.length < queueCap →
      SendMessage s name d .normal =
        some (trySendNotif { s with normalQ := s.normalQ ++ [mkNebMessage name d] }, none)) ∧
    (s.lowQ.length < queueCap →
      SendMessage s name d .low =
        some (trySendNotif { s with lowQ := s.lowQ ++ [mkNebMessage name d] }, none)) ∧
    (queueCap ≤ s.highQ.length → SendMessage s name d .high = none) ∧
    (s.highQ.length < queueCap →
      SendMessage s name d .high =
        some (trySendNotif { s with highQ := s.highQ ++ [mkNebMessage name d] }, none)) := by
  refine ⟨?_, ?_, ?_, ?_, ?_, ?_, ?_⟩
  · intro p hp
    cases p with
    | high => exact absurd rfl hp
    | normal =>
      simp only [SendMessage]
      split <;> rfl
    | low =>
      simp only [SendMessage]
      split <;> rfl
  · intro h
    simp only [SendMessage]
    simp [Nat.not_lt.mpr h]
  · intro h
    simp only [SendMessage]
    simp [Nat.not_lt.mpr h]
  · intro h
    simp only [SendMessage]
    simp [h]
  · intro h
    simp only [SendMessage]
    simp [h]
  · intro h
    simp only [SendMessage]
    simp [Nat.not_lt.mpr h]
  · intro h
    simp only [SendMessage]
    simp [h]

/-- Witness for C9: on a fresh stream a NORMAL send enqueues without
blocking and a HIGH send enqueues into the high queue. -/
theorem SendMessage_priorities_witness :
    SendMessage (newStreamInstance "peer1" true) "blk" [1] .normal =
      some (trySendNotif { newStreamInstance "peer1" true with
        normalQ := (newStreamInstance "peer1" true).normalQ ++ [mkNebMessage "blk" [1]] },
        none) ∧
    SendMessage (newStreamInstance "peer1" true) "blk" [1] .high =
      some (trySendNotif { newStreamInstance "peer1" true with
        highQ := (newStreamInstance "peer1" true).highQ ++ [mkNebMessage "blk" [1]] },
        none) :=
  ⟨(SendMessage_priorities (newStreamInstance "peer1" true) "blk" [1]).2.2.2.1 (by decide),
   (SendMessage_priorities (newStreamInstance "peer1" true) "blk" [1]).2.2.2.2.2.2 (by decide)⟩

/-
  C4: strict-priority draining in the write loop.
-/

theorem WriteNebMessage_connected (E : Env) (s : StreamState) (m : NebMessage)
    (h : s.connected = true) :
    WriteNebMessage E s m =
      ({ s with writeDeadlines :=
                  s.writeDeadlines ++ [writeDeadlineSeconds (E.content m).length]
                wireOut := s.wireOut ++ [E.content m]
                sentMsgs := s.sentMsgs ++ [m] }, none) := by
  unfold WriteNebMessage Write
  simp [h]

theorem writeStep_high (E : Env) (s : StreamState) (m : NebMessage)
    (rest : List NebMessage) (hc : s.connected = true) (h : s.highQ = m :: rest) :
    writeStep E s =
      { s with highQ := rest
               writeDeadlines :=
                 s.writeDeadlines ++ [writeDeadlineSeconds (E.content m).length]
               wireOut := s.wireOut ++ [E.content m]
               sentMsgs := s.sentMsgs ++ [m] } := by
  unfold writeStep
  rw [h]
  dsimp only
  rw [WriteNebMessage_connected E { s with highQ := rest } m hc]

theorem writeStep_normal (E : Env) (s : StreamState) (m : NebMessage)
    (rest : List NebMessage) (hc : s.connected = true) (hh : s.highQ = [])
    (h : s.normalQ = m :: rest) :
    writeStep E s =
      { s with normalQ := rest
               writeDeadlines :=
                 s.writeDeadlines ++ [writeDeadlineSeconds (E.content m).length]
               wireOut := s.wireOut ++ [E.content m]
               sentMsgs := s.sentMsgs ++ [m] } := by
  unfold writeStep
  rw [hh, h]
  dsimp only
  rw [WriteNebMessage_connected E
    { s with highQ := ([] : List NebMessage), normalQ := rest } m hc]

theorem writeStep_low (E : Env) (s : StreamState) (m : NebMessage)
    (rest : List NebMessage) (hc : s.connected = true) (hh : s.highQ = [])
    (hn : s.normalQ = []) (h : s.lowQ = m :: rest) :
    writeStep E s =
      { s with lowQ := rest
               writeDeadlines :=
                 s.writeDeadlines ++ [writeDeadlineSeconds (E.content m).length]
               wireOut := s.wireOut ++ [E.content m]
               sentMsgs := s.sentMsgs ++ [m] } := by
  unfold writeStep
  rw [hh, hn, h]
  dsimp only
  rw [WriteNebMessage_connected E
    { s with highQ := ([] : List NebMessage), normalQ := ([] : List NebMessage),
             lowQ := rest } m hc]

theorem writeStep_empty (E : Env) (s : StreamState) (hh : s.highQ = [])
    (hn : s.normalQ = []) (hl : s.lowQ = []) : writeStep E s = s := by
  unfold writeStep
  rw [hh, hn, hl]

theorem drainNotifs_sentMsgs (E : Env) :
    ∀ (n : Nat) (s : StreamState), s.connected = true →
      (drainNotifs E n s).sentMsgs =
        s.sentMsgs ++ (s.highQ ++ s.normalQ ++ s.lowQ).take n := by
  intro n
  induction n with
  | zero =>
    intro s _
    simp [drainNotifs]
  | succ k ih =>
    intro s hc
    show (drainNotifs E k (writeStep E s)).sentMsgs = _
    match hq : s.highQ, nq : s.normalQ, lq : s.lowQ with
    | m :: rest, _, _ =>
      rw [writeStep_high E s m rest hc hq]
      rw [ih _ (by exact hc)]
      simp [List.take_succ_cons, hq, nq, lq]
    | [], m :: rest, _ =>
      rw [writeStep_normal E s m rest hc hq nq]
      rw [ih _ (by exact hc)]
      simp [List.take_succ_cons, hq, nq, lq]
    | [], [], m :: rest =>
      rw [writeStep_low E s m rest hc hq nq lq]
      rw [ih _ (by exact hc)]
      simp [List.take_succ_cons, hq, nq, lq]
    | [], [], [] =>
      rw [writeStep_empty E s hq nq lq]
      rw [ih _ hc]
      simp [hq, nq, lq]

/-- Claim C4: each notification received by the write loop writes at most
one message, taken from the high queue when non-empty, else the normal
queue, else the low queue, and nothing when all three are empty; hence,
draining n notifications transmits the first n messages of
high ++ normal ++ low, so every queued HIGH message goes out before any
queued NORMAL or LOW message. -/
theorem writeLoop_strict_priority (E : Env) (s : StreamState) (n : Nat)
    (h : s.connected = true) :
    (s.highQ = [] → s.normalQ = [] → s.lowQ = [] → writeStep E s = s) ∧
    (∀ m rest, s.highQ = m :: rest →
      (writeStep E s).sentMsgs = s.sentMsgs ++ [m] ∧ (writeStep E s).highQ = rest) ∧
    (∀ m rest, s.highQ = [] → s.normalQ = m :: rest →
      (writeStep E s).sentMsgs = s.sentMsgs ++ [m] ∧ (writeStep E s).normalQ = rest) ∧
    (∀ m rest, s.highQ = [] → s.normalQ = [] → s.lowQ = m :: rest →
      (writeStep E s).sentMsgs = s.sentMsgs ++ [m] ∧ (writeStep E s).lowQ = rest) ∧
    (drainNotifs E n s).sentMsgs =
      s.sentMsgs ++ (s.highQ ++ s.normalQ ++ s.lowQ).take n := by
  refine ⟨writeStep_empty E s, ?_, ?_, ?_, drainNotifs_sentMsgs E n s h⟩
  · intro m rest hq
    rw [writeStep_high E s m rest h hq]
    exact ⟨rfl, rfl⟩
  · intro m rest hq hn
    rw [writeStep_normal E s m rest h hq hn]
    exact ⟨rfl, rfl⟩
  · intro m rest hq hn hl
    rw [writeStep_low E s m rest h hq hn hl]
    exact ⟨rfl, rfl⟩

/-- A concrete environment with trivial codecs, for concrete evaluations. -/
def E0 : Env :=
  { snappyDecode := fun _ => none
    helloFromProto := fun _ => none
    okFromProto := fun _ => none
    peersFromProto := fun _ => false
    crc32 := fun _ => 0
    content := fun _ => []
    routeTableReplyData := []
    okReplyData := [] }

/-- A stream state with one message in each priority queue. -/
def queuedStream : StreamState :=
  { newStreamInstance "peer1" true with
      highQ := [mkNebMessage "h1" []]
      normalQ := [mkNebMessage "n1" []]
      lowQ := [mkNebMessage "l1" []] }

/-- Witness for C4: with one message queued at each priority, three
notifications transmit them in the order high, normal, low. -/
theorem writeLoop_strict_priority_witness :
    (drainNotifs E0 3 queuedStream).sentMsgs =
      queuedStream.sentMsgs ++
        (queuedStream.highQ ++ queuedStream.normalQ ++ queuedStream.lowQ).take 3 :=
  (writeLoop_strict_priority E0 queuedStream 3 rfl).2.2.2.2

/-
  C5: validation and effects of onHello and onOk.
-/

theorem onHello_valid (E : Env) (s : StreamState) (d : List Nat)
    (msg : HandshakeMsg) (hp : E.helloFromProto d = some msg)
    (hid : msg.nodeId = s.pid) (hv : msg.clientVersion = ClientVersion)
    (hc : s.connected = true) :
    onHello E s d =
      ({ s with addPeerStreamCalls := s.addPeerStreamCalls + 1
                status := .handshakeSucceed
                handshakeSignals := s.handshakeSignals + 1
                writeDeadlines := s.writeDeadlines ++
                  [writeDeadlineSeconds (E.content (mkNebMessage OK E.okReplyData)).length]
                wireOut := s.wireOut ++ [E.content (mkNebMessage OK E.okReplyData)]
                sentMsgs := s.sentMsgs ++ [mkNebMessage OK E.okReplyData] }, none) := by
  unfold onHello
  rw [hp]
  dsimp only
  have hcheck : CheckClientVersionCompatibility ClientVersion msg.clientVersion = true := by
    unfold CheckClientVersionCompatibility
    rw [hv]
    exact beq_self_eq_true ClientVersion
  rw [if_neg (by simp [hid, hcheck])]
  unfold Ok WriteMessage finishHandshake
  rw [WriteNebMessage_connected E
    { s with addPeerStreamCalls := s.addPeerStreamCalls + 1
             status := .handshakeSucceed
             handshakeSignals := s.handshakeSignals + 1 }
    (mkNebMessage OK E.okReplyData) hc]

theorem onOk_valid (E : Env) (s : StreamState) (d : List Nat)
    (msg : HandshakeMsg) (hp : E.okFromProto d = some msg)
    (hid : msg.nodeId = s.pid) (hv : msg.clientVersion = ClientVersion) :
    onOk E s d =
      (finishHandshake { s with addPeerStreamCalls := s.addPeerStreamCalls + 1 },
       none) := by
  unfold onOk
  rw [hp]
  dsimp only
  have hcheck : CheckClientVersionCompatibility ClientVersion msg.clientVersion = true := by
    unfold CheckClientVersionCompatibility
    rw [hv]
    exact beq_self_eq_true ClientVersion
  rw [if_neg (by simp [hid, hcheck])]

theorem onHello_invalid (E : Env) (s : StreamState) (d : List Nat)
    (h : E.helloFromProto d = none ∨
      ∃ msg, E.helloFromProto d = some msg ∧
        (msg.nodeId ≠ s.pid ∨ msg.clientVersion ≠ ClientVersion)) :
    onHello E s d = (s, some NetErr.shouldCloseConnectionAndExitLoop) := by
  unfold onHello
  rcases h with h | ⟨msg, hp, hbad⟩
  · rw [h]
  · rw [hp]
    dsimp only
    refine if_pos ?_
    rcases hbad with hb | hb
    · exact Or.inl hb
    · right
      unfold CheckClientVersionCompatibility
      exact beq_eq_false_iff_ne.mpr fun he => hb he.symm

theorem onOk_invalid (E : Env) (s : StreamState) (d : List Nat)
    (h : E.okFromProto d = none ∨
      ∃ msg, E.okFromProto d = some msg ∧
        (msg.nodeId ≠ s.pid ∨ msg.clientVersion ≠ ClientVersion)) :
    onOk E s d = (s, some NetErr.shouldCloseConnectionAndExitLoop) := by
  unfold onOk
  rcases h with h | ⟨msg, hp, hbad⟩
  · rw [h]
  · rw [hp]
    dsimp only
    refine if_pos ?_
    rcases hbad with hb | hb
    · exact Or.inl hb
    · right
      unfold CheckClientVersionCompatibility
      exact beq_eq_false_iff_ne.mpr fun he => hb he.symm

/-- Claim C5: a HELLO whose advertised node id equals the transport peer id
and whose client version string-equals the local version makes the handler
register via AddPeerStream, set HANDSHAKE_SUCCEEDED, signal the barrier and
reply OK; a valid OK does the same without a reply; any validation failure
yields ShouldCloseConnection with the state untouched; the compatibility
policy is string equality. -/
theorem handshake_validation (E : Env) (s : StreamState) (d : List Nat) :
    (∀ msg : HandshakeMsg, E.helloFromProto d = some msg → msg.nodeId = s.pid →
      msg.clientVersion = ClientVersion → s.connected = true →
      (onHello E s d).2 = none ∧
      (onHello E s d).1.addPeerStreamCalls = s.addPeerStreamCalls + 1 ∧
      (onHello E s d).1.status = StreamStatus.handshakeSucceed ∧
      (onHello E s d).1.handshakeSignals = s.handshakeSignals + 1 ∧
      (onHello E s d).1.sentMsgs = s.sentMsgs ++ [mkNebMessage OK E.okReplyData]) ∧
    (∀ msg : HandshakeMsg, E.okFromProto d = some msg → msg.nodeId = s.pid →
      msg.clientVersion = ClientVersion →
      (onOk E s d).2 = none ∧
      (onOk E s d).1.addPeerStreamCalls = s.addPeerStreamCalls + 1 ∧
      (onOk E s d).1.status = StreamStatus.handshakeSucceed ∧
      (onOk E s d).1.handshakeSignals = s.handshakeSignals + 1 ∧
      (onOk E s d).1.sentMsgs = s.sentMsgs) ∧
    ((E.helloFromProto d = none ∨
      ∃ msg, E.helloFromProto d = some msg ∧
        (msg.nodeId ≠ s.pid ∨ msg.clientVersion ≠ ClientVersion)) →
      onHello E s d = (s, some NetErr.shouldCloseConnectionAndExitLoop)) ∧
    ((E.okFromProto d = none ∨
      ∃ msg, E.okFromProto d = some msg ∧
        (msg.nodeId ≠ s.pid ∨ msg.clientVersion ≠ ClientVersion)) →
      onOk E s d = (s, some NetErr.shouldCloseConnectionAndExitLoop)) ∧
    (∀ v1 v2, CheckClientVersionCompatibility v1 v2 = (v1 == v2)) := by
  refine ⟨?_, ?_, onHello_invalid E s d, onOk_invalid E s d, fun _ _ => rfl⟩
  · intro msg hp hid hv hc
    rw [onHello_valid E s d msg hp hid hv hc]
    exact ⟨rfl, rfl, rfl, rfl, rfl⟩
  · intro msg hp hid hv
    rw [onOk_valid E s d msg hp hid hv]
    exact ⟨rfl, rfl, rfl, rfl, rfl⟩

/-- An environment whose proto decoders accept everything as coming from
peer1 with the local client version. -/
def EH : Env :=
  { E0 with
      snappyDecode := fun d => some d
      helloFromProto := fun _ => some { nodeId := "peer1", clientVersion := "0.3.0" }
      okFromProto := fun _ => some { nodeId := "peer1", clientVersion := "0.3.0" } }

/-- Witness for C5: on a fresh connected stream a valid HELLO succeeds,
registers once, signals once and replies OK. -/
theorem handshake_validation_witness :
    (onHello EH (newStreamInstance "peer1" true) []).2 = none ∧
    (onHello EH (newStreamInstance "peer1" true) []).1.addPeerStreamCalls =
      (newStreamInstance "peer1" true).addPeerStreamCalls + 1 ∧
    (onHello EH (newStreamInstance "peer1" true) []).1.status =
      StreamStatus.handshakeSucceed ∧
    (onHello EH (newStreamInstance "peer1" true) []).1.handshakeSignals =
      (newStreamInstance "peer1" true).handshakeSignals + 1 ∧
    (onHello EH (newStreamInstance "peer1" true) []).1.sentMsgs =
      (newStreamInstance "peer1" true).sentMsgs ++
        [mkNebMessage OK EH.okReplyData] :=
  (handshake_validation EH (newStreamInstance "peer1" true) []).1
    { nodeId := "peer1", clientVersion := "0.3.0" } rfl rfl rfl rfl

/-
  Field preservation lemmas used by the handleMessage claims.
-/

theorem close_handshakeSignals (s : StreamState) :
    (close s).handshakeSignals = s.handshakeSignals := by
  unfold close
  split
  · rfl
  · split <;> rfl

theorem close_sentMsgs (s : StreamState) : (close s).sentMsgs = s.sentMsgs := by
  unfold close
  split
  · rfl
  · split <;> rfl

theorem Write_handshakeSignals (s : StreamState) (d : List Nat) :
    (Write s d).1.handshakeSignals = s.handshakeSignals := by
  unfold Write
  split
  · exact close_handshakeSignals s
  · rfl

theorem Write_status (s : StreamState) (d : List Nat) :
    (Write s d).1.status = s.status ∨ (Write s d).1.status = StreamStatus.closed := by
  unfold Write
  split
  · exact Or.inr (close_status s)
  · exact Or.inl rfl

theorem Write_err (s : StreamState) (d : List Nat) :
    (Write s d).2 = none ∨ (Write s d).2 = some NetErr.streamIsNotConnected := by
  unfold Write
  split
  · exact Or.inr rfl
  · exact Or.inl rfl

theorem WriteNebMessage_handshakeSignals (E : Env) (s : StreamState) (m : NebMessage) :
    (WriteNebMessage E s m).1.handshakeSignals = s.handshakeSignals := by
  unfold WriteNebMessage
  have h := Write_handshakeSignals s (E.content m)
  rcases hw : Write s (E.content m) with ⟨s1, e⟩
  rw [hw] at h
  cases e <;> exact h

theorem WriteNebMessage_status (E : Env) (s : StreamState) (m : NebMessage) :
    (WriteNebMessage E s m).1.status = s.status ∨
    (WriteNebMessage E s m).1.status = StreamStatus.closed := by
  unfold WriteNebMessage
  have h := Write_status s (E.content m)
  rcases hw : Write s (E.content m) with ⟨s1, e⟩
  rw [hw] at h
  cases e <;> exact h

theorem WriteNebMessage_err (E : Env) (s : StreamState) (m : NebMessage) :
    (WriteNebMessage E s m).2 = none ∨
    (WriteNebMessage E s m).2 = some NetErr.streamIsNotConnected := by
  unfold WriteNebMessage
  have h := Write_err s (E.content m)
  rcases hw : Write s (E.content m) with ⟨s1, e⟩
  rw [hw] at h
  cases e with
  | none => exact Or.inl rfl
  | some e1 => exact h

theorem trySendNotif_status (s : StreamState) :
    (trySendNotif s).status = s.status := by
  unfold trySendNotif
  split <;> rfl

theorem trySendNotif_handshakeSignals (s : StreamState) :
    (trySendNotif s).handshakeSignals = s.handshakeSignals := by
  unfold trySendNotif
  split <;> rfl

theorem SendMessage_some (s : StreamState) (name : String) (d : List Nat)
    (p : MessagePriority) (r : StreamState) (e : Option NetErr)
    (h : SendMessage s name d p = some (r, e)) :
    r.status = s.status ∧ r.handshakeSignals = s.handshakeSignals ∧ e = none := by
  cases p <;> simp only [SendMessage] at h
  · split at h
    · rw [Option.some.injEq, Prod.mk.injEq] at h
      obtain ⟨h1, h2⟩ := h
      subst h1
      subst h2
      exact ⟨trySendNotif_status _, trySendNotif_handshakeSignals _, rfl⟩
    · exact absurd h (by simp)
  · split at h
    · rw [Option.some.injEq, Prod.mk.injEq] at h
      obtain ⟨h1, h2⟩ := h
      subst h1
      subst h2
      exact ⟨trySendNotif_status _, trySendNotif_handshakeSignals _, rfl⟩
    · rw [Option.some.injEq, Prod.mk.injEq] at h
      obtain ⟨h1, h2⟩ := h
      subst h1
      subst h2
      exact ⟨rfl, rfl, rfl⟩
  · split at h
    · rw [Option.some.injEq, Prod.mk.injEq] at h
      obtain ⟨h1, h2⟩ := h
      subst h1
      subst h2
      exact ⟨trySendNotif_status _, trySendNotif_handshakeSignals _, rfl⟩
    · rw [Option.some.injEq, Prod.mk.injEq] at h
      obtain ⟨h1, h2⟩ := h
      subst h1
      subst h2
      exact ⟨rfl, rfl, rfl⟩

/-
  C1: before the handshake, a message outside HELLO, OK, BYE closes the
  connection, provided its payload decompresses.
-/

theorem handleMessage_reject (E : Env) (s : StreamState) (m : NebMessage)
    (h1 : s.status ≠ StreamStatus.handshakeSucceed)
    (h2 : m.messageName ≠ HELLO) (h3 : m.messageName ≠ OK)
    (h4 : m.messageName ≠ BYE)
    (h5 : compressBit m = 0 ∨ (E.snappyDecode m.data).isSome = true) :
    handleMessage E s m =
      some (recordIncoming s m, some NetErr.shouldCloseConnectionAndExitLoop) := by
  have hst : (recordIncoming s m).status ≠ StreamStatus.handshakeSucceed := h1
  unfold handleMessage
  rcases h5 with h5 | h5
  · rw [if_neg (by simp [h5])]
    dsimp only
    rw [if_neg h2, if_neg h3, if_neg h4, if_pos hst]
  · cases hd : E.snappyDecode m.data with
    | none => rw [hd] at h5; exact absurd h5 (by simp)
    | some d0 =>
      by_cases hbit : compressBit m > 0
      · rw [if_pos ⟨h2, hbit⟩]
        dsimp only
        rw [if_neg h2, if_neg h3, if_neg h4, if_pos hst]
      · rw [if_neg (by simp [hbit])]
        dsimp only
        rw [if_neg h2, if_neg h3, if_neg h4, if_pos hst]

theorem handleMessage_uncompressFailed (E : Env) (s : StreamState) (m : NebMessage)
    (h2 : m.messageName ≠ HELLO) (hbit : compressBit m > 0)
    (hd : E.snappyDecode m.data = none) :
    handleMessage E s m =
      some (recordIncoming s m, some NetErr.uncompressMessageFailed) := by
  unfold handleMessage
  rw [if_pos ⟨h2, hbit⟩, hd]

/-- Claim C1 (amended): for a stream whose status is not HANDSHAKE_SUCCEEDED,
handling a message named outside HELLO, OK, BYE whose payload decompresses
(compression bit clear, or snappy decode succeeds) makes handleMessage
return ShouldCloseConnection, and the read loop dispatch then sends BYE,
closes and exits; when instead the compression bit is set and decompression
fails, handleMessage returns UncompressFailed and the loop does not close
(see the counterexample). -/
theorem preHandshake_unknown_name_closes (E : Env) (s : StreamState)
    (m : NebMessage) (h1 : s.status ≠ StreamStatus.handshakeSucceed)
    (hname : ¬ (m.messageName = HELLO ∨ m.messageName = OK ∨ m.messageName = BYE))
    (hdec : compressBit m = 0 ∨ (E.snappyDecode m.data).isSome = true) :
    handleMessage E s m =
      some (recordIncoming s m, some NetErr.shouldCloseConnectionAndExitLoop) ∧
    readStep E s m = some (Bye E (recordIncoming s m), true) ∧
    (Bye E (recordIncoming s m)).status = StreamStatus.closed ∧
    (s.connected = true →
      mkNebMessage BYE [] ∈ (Bye E (recordIncoming s m)).sentMsgs) := by
  push_neg at hname
  have hmain := handleMessage_reject E s m h1 hname.1 hname.2.1 hname.2.2 hdec
  refine ⟨hmain, ?_, close_status _, ?_⟩
  · unfold readStep
    rw [hmain]
    rfl
  · intro hc
    unfold Bye WriteMessage
    rw [close_sentMsgs]
    rw [WriteNebMessage_connected E (recordIncoming s m) (mkNebMessage BYE []) hc]
    simp

/-- A compressed message with an undecodable payload and a non-handshake
name. -/
def badMsg : NebMessage := { messageName := "syncroute", reserved0 := 128, data := [1] }

/-- Counterexample to claim C1 as stated: on a fresh connected stream in
INIT, the non-handshake message badMsg (compression bit set, payload that
snappy rejects) does not close the connection: the read loop keeps running
and the status stays off CLOSED. -/
theorem preHandshake_unknown_name_counterexample :
    (newStreamInstance "peer1" true).status ≠ StreamStatus.handshakeSucceed ∧
    badMsg.messageName ≠ HELLO ∧ badMsg.messageName ≠ OK ∧
    badMsg.messageName ≠ BYE ∧
    readStep E0 (newStreamInstance "peer1" true) badMsg =
      some (recordIncoming (newStreamInstance "peer1" true) badMsg, false) ∧
    (recordIncoming (newStreamInstance "peer1" true) badMsg).status ≠
      StreamStatus.closed := by decide

/-- Witness for C1 (amended): an uncompressed RECVEDMSG-style message named
outside the handshake set, received in INIT, triggers BYE and close. -/
theorem preHandshake_unknown_name_closes_witness :
    handleMessage E0 (newStreamInstance "peer1" true)
        (mkNebMessage "recvedmsg" [2]) =
      some (recordIncoming (newStreamInstance "peer1" true)
        (mkNebMessage "recvedmsg" [2]), some NetErr.shouldCloseConnectionAndExitLoop) ∧
    readStep E0 (newStreamInstance "peer1" true) (mkNebMessage "recvedmsg" [2]) =
      some (Bye E0 (recordIncoming (newStreamInstance "peer1" true)
        (mkNebMessage "recvedmsg" [2])), true) ∧
    (Bye E0 (recordIncoming (newStreamInstance "peer1" true)
        (mkNebMessage "recvedmsg" [2]))).status = StreamStatus.closed ∧
    ((newStreamInstance "peer1" true).connected = true →
      mkNebMessage BYE [] ∈ (Bye E0 (recordIncoming (newStreamInstance "peer1" true)
        (mkNebMessage "recvedmsg" [2]))).sentMsgs) :=
  preHandshake_unknown_name_closes E0 (newStreamInstance "peer1" true)
    (mkNebMessage "recvedmsg" [2]) (by decide) (by decide) (by decide)

/-
  C7: which errors terminate the read loop.
-/

theorem onHello_err (E : Env) (s : StreamState) (d : List Nat) :
    (onHello E s d).2 = none ∨
    (onHello E s d).2 = some NetErr.shouldCloseConnectionAndExitLoop ∨
    (onHello E s d).2 = some NetErr.streamIsNotConnected := by
  unfold onHello
  cases hp : E.helloFromProto d with
  | none => exact Or.inr (Or.inl rfl)
  | some msg =>
    dsimp only
    split
    · exact Or.inr (Or.inl rfl)
    · unfold Ok WriteMessage
      rcases WriteNebMessage_err E (finishHandshake
          { s with addPeerStreamCalls := s.addPeerStreamCalls + 1 })
          (mkNebMessage OK E.okReplyData) with he | he
      · exact Or.inl he
      · exact Or.inr (Or.inr he)

theorem onOk_err (E : Env) (s : StreamState) (d : List Nat) :
    (onOk E s d).2 = none ∨
    (onOk E s d).2 = some NetErr.shouldCloseConnectionAndExitLoop := by
  unfold onOk
  cases hp : E.okFromProto d with
  | none => exact Or.inr rfl
  | some msg =>
    dsimp only
    split
    · exact Or.inr rfl
    · exact Or.inl rfl

theorem onRouteTable_err (E : Env) (s : StreamState) (d : List Nat) :
    (onRouteTable E s d).2 = none ∨
    (onRouteTable E s d).2 = some NetErr.shouldCloseConnectionAndExitLoop := by
  unfold onRouteTable
  split
  · exact Or.inl rfl
  · exact Or.inr rfl

theorem handleMessage_uncompress_shape (E : Env) (s : StreamState)
    (m : NebMessage) (r : StreamState)
    (h : handleMessage E s m = some (r, some NetErr.uncompressMessageFailed)) :
    r = recordIncoming s m := by
  unfold handleMessage at h
  cases hsc : (if m.messageName ≠ HELLO ∧ compressBit m > 0
      then E.snappyDecode m.data else some m.data) with
  | none =>
    rw [hsc] at h
    dsimp only at h
    rw [Option.some.injEq, Prod.mk.injEq] at h
    exact h.1.symm
  | some d0 =>
    rw [hsc] at h
    dsimp only at h
    by_cases hH : m.messageName = HELLO
    · rw [if_pos hH] at h
      have h2 := congrArg Prod.snd (Option.some.inj h)
      rcases onHello_err E (recordIncoming s m) d0 with he | he | he <;>
        rw [he] at h2 <;> simp at h2
    · rw [if_neg hH] at h
      by_cases hO : m.messageName = OK
      · rw [if_pos hO] at h
        have h2 := congrArg Prod.snd (Option.some.inj h)
        rcases onOk_err E (recordIncoming s m) d0 with he | he <;>
          rw [he] at h2 <;> simp at h2
      · rw [if_neg hO] at h
        by_cases hB : m.messageName = BYE
        · rw [if_pos hB] at h
          have h2 := congrArg Prod.snd (Option.some.inj h)
          simp [onBye] at h2
        · rw [if_neg hB] at h
          by_cases hs : (recordIncoming s m).status ≠ StreamStatus.handshakeSucceed
          · rw [if_pos hs] at h
            have h2 := congrArg Prod.snd (Option.some.inj h)
            simp at h2
          · rw [if_neg hs] at h
            by_cases hS : m.messageName = SYNCROUTE
            · rw [if_pos hS] at h
              unfold onSyncRoute at h
              have := (SendMessage_some (recordIncoming s m) ROUTETABLE
                E.routeTableReplyData .high r
                (some NetErr.uncompressMessageFailed) h).2.2
              simp at this
            · rw [if_neg hS] at h
              by_cases hR : m.messageName = ROUTETABLE
              · rw [if_pos hR] at h
                have h2 := congrArg Prod.snd (Option.some.inj h)
                rcases onRouteTable_err E (recordIncoming s m) d0 with he | he <;>
                  rw [he] at h2 <;> simp at h2
              · rw [if_neg hR] at h
                have h2 := congrArg Prod.snd (Option.some.inj h)
                simp at h2

/-- Claim C7 (amended): of the errors handleMessage can return to the read
loop, exactly ShouldCloseConnection makes the dispatch step send BYE and
exit; an UncompressFailed result (a non-HELLO message whose compressed
payload fails to decompress) is swallowed: the loop continues with the
message dropped and the stream status unchanged.  (Transport read errors
and frame parse errors, handled earlier in the loop body, do terminate the
loop.) -/
theorem readLoop_error_policy (E : Env) (s : StreamState) (m : NebMessage)
    (r : StreamState) (e : Option NetErr)
    (h : handleMessage E s m = some (r, e)) :
    readStep E s m =
      (if e = some NetErr.shouldCloseConnectionAndExitLoop
       then some (Bye E r, true) else some (r, false)) ∧
    (e = some NetErr.uncompressMessageFailed →
      readStep E s m = some (r, false) ∧ r.status = s.status) := by
  constructor
  · unfold readStep
    rw [h]
  · intro he
    subst he
    have hr := handleMessage_uncompress_shape E s m r h
    constructor
    · unfold readStep
      rw [h]
      rfl
    · rw [hr]
      rfl

/-- Counterexample to claim C7 as stated: badMsg yields the UncompressFailed
error, yet the read loop does not exit and the stream is not closed. -/
theorem readLoop_error_policy_counterexample :
    handleMessage E0 (newStreamInstance "peer1" true) badMsg =
      some (recordIncoming (newStreamInstance "peer1" true) badMsg,
        some NetErr.uncompressMessageFailed) ∧
    readStep E0 (newStreamInstance "peer1" true) badMsg =
      some (recordIncoming (newStreamInstance "peer1" true) badMsg, false) ∧
    Bye E0 (recordIncoming (newStreamInstance "peer1" true) badMsg) ≠
      (recordIncoming (newStreamInstance "peer1" true) badMsg) := by decide

/-- Witness for C7 (amended): at the concrete badMsg input the swallowed
UncompressFailed error leaves the loop running with the status unchanged. -/
theorem readLoop_error_policy_witness :
    readStep E0 (newStreamInstance "peer1" true) badMsg =
      some (recordIncoming (newStreamInstance "peer1" true) badMsg, false) ∧
    (recordIncoming (newStreamInstance "peer1" true) badMsg).status =
      (newStreamInstance "peer1" true).status :=
  (readLoop_error_policy E0 (newStreamInstance "peer1" true) badMsg
    (recordIncoming (newStreamInstance "peer1" true) badMsg)
    (some NetErr.uncompressMessageFailed) (by decide)).2 rfl

/-
  C2: evolution of the status field.
-/

theorem onHello_status (E : Env) (s : StreamState) (d : List Nat) :
    (onHello E s d).1.status = s.status ∨
    (onHello E s d).1.status = StreamStatus.handshakeSucceed ∨
    (onHello E s d).1.status = StreamStatus.closed := by
  unfold onHello
  cases hp : E.helloFromProto d with
  | none => exact Or.inl rfl
  | some msg =>
    dsimp only
    split
    · exact Or.inl rfl
    · unfold Ok WriteMessage
      rcases WriteNebMessage_status E (finishHandshake
          { s with addPeerStreamCalls := s.addPeerStreamCalls + 1 })
          (mkNebMessage OK E.okReplyData) with hst | hst
      · exact Or.inr (Or.inl hst)
      · exact Or.inr (Or.inr hst)

theorem onOk_status (E : Env) (s : StreamState) (d : List Nat) :
    (onOk E s d).1.status = s.status ∨
    (onOk E s d).1.status = StreamStatus.handshakeSucceed := by
  unfold onOk
  cases hp : E.okFromProto d with
  | none => exact Or.inl rfl
  | some msg =>
    dsimp only
    split
    · exact Or.inl rfl
    · exact Or.inr rfl

theorem onRouteTable_status (E : Env) (s : StreamState) (d : List Nat) :
    (onRouteTable E s d).1.status = s.status := by
  unfold onRouteTable
  split <;> rfl

theorem handleMessage_status (E : Env) (s : StreamState) (m : NebMessage)
    (r : StreamState) (e : Option NetErr)
    (h : handleMessage E s m = some (r, e)) :
    r.status = s.status ∨ r.status = StreamStatus.handshakeSucceed ∨
    r.status = StreamStatus.closed := by
  unfold handleMessage at h
  cases hsc : (if m.messageName ≠ HELLO ∧ compressBit m > 0
      then E.snappyDecode m.data else some m.data) with
  | none =>
    rw [hsc] at h
    dsimp only at h
    rw [Option.some.injEq, Prod.mk.injEq] at h
    exact Or.inl (h.1 ▸ rfl)
  | some d0 =>
    rw [hsc] at h
    dsimp only at h
    by_cases hH : m.messageName = HELLO
    · rw [if_pos hH] at h
      have h1 := congrArg Prod.fst (Option.some.inj h)
      rcases onHello_status E (recordIncoming s m) d0 with hh | hh | hh <;>
        rw [h1] at hh
      · exact Or.inl hh
      · exact Or.inr (Or.inl hh)
      · exact Or.inr (Or.inr hh)
    · rw [if_neg hH] at h
      by_cases hO : m.messageName = OK
      · rw [if_pos hO] at h
        have h1 := congrArg Prod.fst (Option.some.inj h)
        rcases onOk_status E (recordIncoming s m) d0 with hh | hh <;>
          rw [h1] at hh
        · exact Or.inl hh
        · exact Or.inr (Or.inl hh)
      · rw [if_neg hO] at h
        by_cases hB : m.messageName = BYE
        · rw [if_pos hB] at h
          simp only [onBye, Option.some.injEq, Prod.mk.injEq] at h
          exact Or.inl (h.1 ▸ rfl)
        · rw [if_neg hB] at h
          by_cases hs : (recordIncoming s m).status ≠ StreamStatus.handshakeSucceed
          · rw [if_pos hs] at h
            rw [Option.some.injEq, Prod.mk.injEq] at h
            exact Or.inl (h.1 ▸ rfl)
          · rw [if_neg hs] at h
            by_cases hS : m.messageName = SYNCROUTE
            · rw [if_pos hS] at h
              unfold onSyncRoute at h
              exact Or.inl (SendMessage_some (recordIncoming s m) ROUTETABLE
                E.routeTableReplyData .high r e h).1
            · rw [if_neg hS] at h
              by_cases hR : m.messageName = ROUTETABLE
              · rw [if_pos hR] at h
                have h1 := congrArg Prod.fst (Option.some.inj h)
                have := onRouteTable_status E (recordIncoming s m) d0
                rw [h1] at this
                exact Or.inl this
              · rw [if_neg hR] at h
                rw [Option.some.injEq, Prod.mk.injEq] at h
                exact Or.inl (h.1 ▸ rfl)

theorem statusRank_le_two (st : StreamStatus) : statusRank st ≤ 2 := by
  cases st <;> simp [statusRank]

/-- Claim C2 (amended): the status rank never decreases under close or
under handling a message, with one exception: handling a message that
completes a handshake while the stream is already CLOSED moves the status
back to HANDSHAKE_SUCCEEDED, because finishHandshake assigns the status
unconditionally.  So CLOSED is terminal only for executions in which no
valid HELLO or OK is processed after close. -/
theorem status_monotonic_dichotomy (E : Env) (s : StreamState) (op : StreamOp) :
    statusRank s.status ≤ statusRank (applyOp E s op).status ∨
    (s.status = StreamStatus.closed ∧
      (applyOp E s op).status = StreamStatus.handshakeSucceed) := by
  cases op with
  | doClose =>
    left
    show statusRank s.status ≤ statusRank (close s).status
    rw [close_status s]
    exact statusRank_le_two s.status
  | recv m =>
    cases hm : handleMessage E s m with
    | none =>
      have happ : applyOp E s (.recv m) = s := by
        unfold applyOp
        dsimp only
        rw [hm]
      rw [happ]
      exact Or.inl (Nat.le_refl _)
    | some p =>
      rcases p with ⟨r, e⟩
      have happ : applyOp E s (.recv m) = r := by
        unfold applyOp
        dsimp only
        rw [hm]
      rw [happ]
      rcases handleMessage_status E s m r e hm with hr | hr | hr
      · rw [hr]
        exact Or.inl (Nat.le_refl _)
      · by_cases hcl : s.status = StreamStatus.closed
        · exact Or.inr ⟨hcl, hr⟩
        · left
          rw [hr]
          cases hst : s.status with
          | init => simp [statusRank]
          | handshakeSucceed => simp [statusRank]
          | closed => exact absurd hst hcl
      · left
        rw [hr]
        exact statusRank_le_two s.status

/-- Counterexample to claim C2 as stated: close a fresh connected stream
(status CLOSED), then handle a valid HELLO; finishHandshake runs with no
status guard and the status leaves CLOSED for HANDSHAKE_SUCCEEDED. -/
theorem status_monotonic_counterexample :
    (runOps EH (newStreamInstance "peer1" true) [StreamOp.doClose]).status =
      StreamStatus.closed ∧
    (runOps EH (newStreamInstance "peer1" true)
      [StreamOp.doClose, StreamOp.recv (mkNebMessage HELLO [])]).status =
      StreamStatus.handshakeSucceed := by decide

/-
  C6: how often the handshake barrier is signalled.
-/

theorem onRouteTable_handshakeSignals (E : Env) (s : StreamState) (d : List Nat) :
    (onRouteTable E s d).1.handshakeSignals = s.handshakeSignals := by
  unfold onRouteTable
  split <;> rfl

theorem onHello_handshakeSignals (E : Env) (s : StreamState) (d : List Nat) :
    (onHello E s d).1.handshakeSignals =
      s.handshakeSignals +
        (match E.helloFromProto d with
         | none => 0
         | some msg =>
           if msg.nodeId = s.pid ∧
               CheckClientVersionCompatibility ClientVersion msg.clientVersion = true
           then 1 else 0) := by
  unfold onHello
  cases hp : E.helloFromProto d with
  | none => simp
  | some msg =>
    dsimp only
    by_cases hv : msg.nodeId = s.pid ∧
        CheckClientVersionCompatibility ClientVersion msg.clientVersion = true
    · have hcond : ¬ (msg.nodeId ≠ s.pid ∨
          CheckClientVersionCompatibility ClientVersion msg.clientVersion = false) := by
        push_neg
        exact ⟨hv.1, by simp [hv.2]⟩
      rw [if_neg hcond, if_pos hv]
      unfold Ok WriteMessage
      rw [WriteNebMessage_handshakeSignals E (finishHandshake
        { s with addPeerStreamCalls := s.addPeerStreamCalls + 1 })
        (mkNebMessage OK E.okReplyData)]
      rfl
    · have hcond : msg.nodeId ≠ s.pid ∨
          CheckClientVersionCompatibility ClientVersion msg.clientVersion = false := by
        rcases not_and_or.mp hv with ha | hb
        · exact Or.inl ha
        · right
          cases hB : CheckClientVersionCompatibility ClientVersion msg.clientVersion
          · rfl
          · exact absurd hB hb
      rw [if_pos hcond, if_neg hv]
      rfl

theorem onOk_handshakeSignals (E : Env) (s : StreamState) (d : List Nat) :
    (onOk E s d).1.handshakeSignals =
      s.handshakeSignals +
        (match E.okFromProto d with
         | none => 0
         | some msg =>
           if msg.nodeId = s.pid ∧
               CheckClientVersionCompatibility ClientVersion msg.clientVersion = true
           then 1 else 0) := by
  unfold onOk
  cases hp : E.okFromProto d with
  | none => simp
  | some msg =>
    dsimp only
    by_cases hv : msg.nodeId = s.pid ∧
        CheckClientVersionCompatibility ClientVersion msg.clientVersion = true
    · have hcond : ¬ (msg.nodeId ≠ s.pid ∨
          CheckClientVersionCompatibility ClientVersion msg.clientVersion = false) := by
        push_neg
        exact ⟨hv.1, by simp [hv.2]⟩
      rw [if_neg hcond, if_pos hv]
      rfl
    · have hcond : msg.nodeId ≠ s.pid ∨
          CheckClientVersionCompatibility ClientVersion msg.clientVersion = false := by
        rcases not_and_or.mp hv with ha | hb
        · exact Or.inl ha
        · right
          cases hB : CheckClientVersionCompatibility ClientVersion msg.clientVersion
          · rfl
          · exact absurd hB hb
      rw [if_pos hcond, if_neg hv]
      rfl

/-- A message completes the handshake when it is a HELLO or OK whose
payload (decompressed exactly as handleMessage does) decodes to a proto
carrying the transport peer id and a string-equal client version.  This
mirrors the path handleMessage takes to finishHandshake. -/
def completesHandshake (E : Env) (s : StreamState) (m : NebMessage) : Bool :=
  if m.messageName = HELLO then
    match E.helloFromProto m.data with
    | none => false
    | some msg =>
      if msg.nodeId = s.pid ∧
          CheckClientVersionCompatibility ClientVersion msg.clientVersion = true
      then true else false
  else if m.messageName = OK then
    match (if m.messageName ≠ HELLO ∧ compressBit m > 0
           then E.snappyDecode m.data else some m.data) with
    | none => false
    | some d =>
      match E.okFromProto d with
      | none => false
      | some msg =>
        if msg.nodeId = s.pid ∧
            CheckClientVersionCompatibility ClientVersion msg.clientVersion = true
        then true else false
  else false

/-- Barrier signal count after one handleMessage call; a blocked call
leaves the count unchanged. -/
def signalsAfter (E : Env) (s : StreamState) (m : NebMessage) : Nat :=
  match handleMessage E s m with
  | some (r, _) => r.handshakeSignals
  | none => s.handshakeSignals

theorem handleMessage_signals_other (E : Env) (s : StreamState) (m : NebMessage)
    (hH : m.messageName ≠ HELLO) (hO : m.messageName ≠ OK) :
    signalsAfter E s m = s.handshakeSignals := by
  unfold signalsAfter handleMessage
  cases hsc : (if m.messageName ≠ HELLO ∧ compressBit m > 0
      then E.snappyDecode m.data else some m.data) with
  | none => rfl
  | some d0 =>
    dsimp only
    rw [if_neg hH, if_neg hO]
    by_cases hB : m.messageName = BYE
    · rw [if_pos hB]
      rfl
    · rw [if_neg hB]
      by_cases hs : (recordIncoming s m).status ≠ StreamStatus.handshakeSucceed
      · rw [if_pos hs]
        rfl
      · rw [if_neg hs]
        by_cases hS : m.messageName = SYNCROUTE
        · rw [if_pos hS]
          unfold onSyncRoute
          cases hsm : SendMessage (recordIncoming s m) ROUTETABLE
              E.routeTableReplyData .high with
          | none => rfl
          | some p =>
            rcases p with ⟨r, e⟩
            dsimp only
            exact (SendMessage_some (recordIncoming s m) ROUTETABLE
              E.routeTableReplyData .high r e hsm).2.1
        · rw [if_neg hS]
          by_cases hR : m.messageName = ROUTETABLE
          · rw [if_pos hR]
            exact onRouteTable_handshakeSignals E (recordIncoming s m) d0
          · rw [if_neg hR]
            rfl

theorem recordIncoming_pid (s : StreamState) (m : NebMessage) :
    (recordIncoming s m).pid = s.pid := rfl

theorem recordIncoming_handshakeSignals (s : StreamState) (m : NebMessage) :
    (recordIncoming s m).handshakeSignals = s.handshakeSignals := rfl

/-- Claim C6 (amended): each handleMessage call signals the handshake
barrier exactly once when the message validly completes a handshake and
not at all otherwise; since finishHandshake carries no once-guard, every
further valid HELLO or OK signals the barrier again (see the
counterexample), so the barrier is signalled exactly once only in
executions handling exactly one valid handshake message. -/
theorem barrier_signal_count (E : Env) (s : StreamState) (m : NebMessage) :
    signalsAfter E s m =
      s.handshakeSignals +
        (if completesHandshake E s m = true then 1 else 0) := by
  by_cases hH : m.messageName = HELLO
  · unfold signalsAfter handleMessage completesHandshake
    rw [if_neg (fun hc => hc.1 hH)]
    dsimp only
    rw [if_pos hH, if_pos hH]
    rcases ho : onHello E (recordIncoming s m) m.data with ⟨r, e⟩
    dsimp only
    have hsig := onHello_handshakeSignals E (recordIncoming s m) m.data
    rw [ho, recordIncoming_pid, recordIncoming_handshakeSignals] at hsig
    dsimp only at hsig
    cases hp : E.helloFromProto m.data with
    | none =>
      rw [hp] at hsig
      rw [hsig]
      simp
    | some msg =>
      rw [hp] at hsig
      dsimp only at hsig
      dsimp only
      by_cases hv : msg.nodeId = s.pid ∧
          CheckClientVersionCompatibility ClientVersion msg.clientVersion = true
      · rw [if_pos hv] at hsig
        rw [if_pos hv, hsig]
        simp
      · rw [if_neg hv] at hsig
        rw [if_neg hv, hsig]
        simp
  · by_cases hO : m.messageName = OK
    · unfold signalsAfter handleMessage completesHandshake
      rw [if_neg hH, if_pos hO]
      cases hsc : (if m.messageName ≠ HELLO ∧ compressBit m > 0
          then E.snappyDecode m.data else some m.data) with
      | none =>
        dsimp only
        rw [recordIncoming_handshakeSignals]
        simp
      | some d0 =>
        dsimp only
        rw [if_neg hH, if_pos hO]
        rcases ho : onOk E (recordIncoming s m) d0 with ⟨r, e⟩
        dsimp only
        have hsig := onOk_handshakeSignals E (recordIncoming s m) d0
        rw [ho, recordIncoming_pid, recordIncoming_handshakeSignals] at hsig
        dsimp only at hsig
        cases hp : E.okFromProto d0 with
        | none =>
          rw [hp] at hsig
          rw [hsig]
          simp
        | some msg =>
          rw [hp] at hsig
          dsimp only at hsig
          dsimp only
          by_cases hv : msg.nodeId = s.pid ∧
              CheckClientVersionCompatibility ClientVersion msg.clientVersion = true
          · rw [if_pos hv] at hsig
            rw [if_pos hv, hsig]
            simp
          · rw [if_neg hv] at hsig
            rw [if_neg hv, hsig]
            simp
    · rw [handleMessage_signals_other E s m hH hO]
      unfold completesHandshake
      rw [if_neg hH, if_neg hO]
      simp

/-- Counterexample to claim C6 as stated: two valid HELLO messages in a row
signal the handshake barrier twice. -/
theorem barrier_double_signal_counterexample :
    (runOps EH (newStreamInstance "peer1" true)
      [StreamOp.recv (mkNebMessage HELLO []),
       StreamOp.recv (mkNebMessage HELLO [])]).handshakeSignals = 2 := by decide

end NebNet
